import Mathlib

/-!
Verification development for the `systemd` marshalling library.

The library maps a typed `Daemon` record (four sections of string-valued fields)
to and from the line-oriented INI-style text of systemd unit files.  The
embedding below models the library's own code (`systemd.go`) directly; the
generic INI collaborator (`gopkg.in/ini.v1`) is external to the repository and
is modelled from the specification's collaborator interface: a document is an
ordered list of named sections of key/value pairs, section lookup yields the
section or reports it absent, and rendering/parsing are line oriented.

Text is modelled one line at a time: a document is a `List Line` where each
`Line` is the list of characters between two newlines.  Field values are
therefore line-atomic in the model (a value containing a newline is not
representable as raw text).
-/

namespace systemd

/-- A line of text, as its list of characters. -/
abbrev Line := List Char

/-- The characters of a string literal, used to build concrete lines. -/
def str (s : String) : Line := s.data

/-- Whitespace recognised by Go's `strings.TrimSpace`/`bytes.TrimSpace`
(restricted to the ASCII space characters that can occur here). -/
def isWS (c : Char) : Bool := c = ' ' || c = '\t' || c = '\n' || c = '\r'

/-- Drop leading whitespace (Go `bytes.TrimSpace`, left side). -/
def trimStart (l : Line) : Line := l.dropWhile isWS

/-- Drop trailing whitespace (Go `bytes.TrimSpace`, right side). -/
def trimEnd (l : Line) : Line :=
  l.foldr (fun c acc => if acc.isEmpty && isWS c then [] else c :: acc) []

/-- Trim whitespace from both ends of a line (Go `bytes.TrimSpace`). -/
def trimL (l : Line) : Line := trimEnd (trimStart l)

/-- Split a line at its first `=` character (Go `bytes.Cut(line, []byte("="))`):
the key part before it and the value part after it, or `none` when the line has
no `=`. -/
def cutEq : Line → Option (Line × Line)
  | [] => none
  | c :: cs =>
    if c = '=' then some ([], cs)
    else (cutEq cs).map (fun p => (c :: p.1, p.2))

/-- The per-line normalisation applied by each section's `export` scanner: a
line containing `=` is rewritten as trimmed key, `=`, trimmed value; any other
line is kept as is. -/
def normalizeLine (l : Line) : Line :=
  match cutEq l with
  | some (k, v) => trimL k ++ '=' :: trimL v
  | none => l

/-- The `tag` record of the source: emitted key name, Go field name, the
omitempty flag, and the field's value, `none` standing for the nil `*string`
used when the field holds the empty string. -/
structure Tag where
  Name : String
  Field : String
  Optional : Bool
  Value : Option String
deriving DecidableEq

/-- Builds the `Value` pointer of a tag: nil (`none`) for the empty string,
otherwise a pointer to the value (`tags()` in the source). -/
def optValue (s : String) : Option String := if s = "" then none else some s

/-- Outcome of a Go computation: a value, a returned error (a combined error is
the list of its component messages, in order), or a runtime panic. -/
inductive Res (α : Type) where
  | ok : α → Res α
  | error : List String → Res α
  | panic : String → Res α
deriving DecidableEq

/-- The Go runtime message for dereferencing a nil pointer. -/
def nilDeref : String := "runtime error: invalid memory address or nil pointer dereference"

/-- Insert a key/value pair into an association list, replacing the value in
place when the key is already bound (Go map assignment). -/
def upsert {κ ν : Type} [DecidableEq κ] : List (κ × ν) → κ → ν → List (κ × ν)
  | [], k, v => [(k, v)]
  | (k', v') :: rest, k, v =>
    if k' = k then (k, v) :: rest else (k', v') :: upsert rest k v

/-- Lookup in an association list by decidable equality on keys. -/
def alookup {κ ν : Type} [DecidableEq κ] : List (κ × ν) → κ → Option ν
  | [], _ => none
  | (k', v') :: rest, k => if k' = k then some v' else alookup rest k

/-- Read a field value out of a parsed section under its ini key, the empty
string when the key is absent (the collaborator's `MapTo` on a string field). -/
def getStr (sec : List (Line × Line)) (k : String) : String :=
  match alookup sec (str k) with
  | some v => String.mk v
  | none => ""

/-- The `Unit` record from the source: every field is a Go string defaulting to the empty string. -/
structure Unit where
  Description : String := ""
  Documentation : String := ""
  Requires : String := ""
  Requisite : String := ""
  Wants : String := ""
  BindsTo : String := ""
  PartOf : String := ""
  Conflicts : String := ""
  Before : String := ""
  After : String := ""
  OnFailure : String := ""
  PropagatesReloadTo : String := ""
  ReloadPropagatedFrom : String := ""
  JoinsNamespaceOf : String := ""
  RequiresMountsFor : String := ""
  OnFailureJobMode : String := ""
  IgnoreOnIsolate : String := ""
  StopWhenUnneeded : String := ""
  RefuseManualStart : String := ""
  RefuseManualStop : String := ""
  AllowIsolate : String := ""
  DefaultDependencies : String := ""
  JobTimeoutSec : String := ""
  JobTimeoutAction : String := ""
  StartLimitIntervalSec : String := ""
  StartLimitAction : String := ""
  Condition : String := ""
  Assert : String := ""
  SourcePath : String := ""
deriving DecidableEq

/-- Embeds `Unit.tags` from the source: one descriptor per field, in declaration order, with
the emitted key and optionality taken from the field's systemd annotation and the value
nil (`none`) exactly when the field holds the empty string. -/
def Unit.tags (u : Unit) : List Tag := [
  ⟨"Description", "Description", false, optValue u.Description⟩,
  ⟨"Documentation", "Documentation", true, optValue u.Documentation⟩,
  ⟨"Requires", "Requires", true, optValue u.Requires⟩,
  ⟨"Requisite", "Requisite", true, optValue u.Requisite⟩,
  ⟨"Wants", "Wants", true, optValue u.Wants⟩,
  ⟨"BindsTo", "BindsTo", true, optValue u.BindsTo⟩,
  ⟨"PartOf", "PartOf", true, optValue u.PartOf⟩,
  ⟨"Conflicts", "Conflicts", true, optValue u.Conflicts⟩,
  ⟨"Before", "Before", true, optValue u.Before⟩,
  ⟨"After", "After", true, optValue u.After⟩,
  ⟨"OnFailure", "OnFailure", true, optValue u.OnFailure⟩,
  ⟨"PropagatesReloadTo", "PropagatesReloadTo", true, optValue u.PropagatesReloadTo⟩,
  ⟨"ReloadPropagatedFrom", "ReloadPropagatedFrom", true, optValue u.ReloadPropagatedFrom⟩,
  ⟨"JoinsNamespaceOf", "JoinsNamespaceOf", true, optValue u.JoinsNamespaceOf⟩,
  ⟨"RequiresMountsFor", "RequiresMountsFor", true, optValue u.RequiresMountsFor⟩,
  ⟨"OnFailureJobMode", "OnFailureJobMode", true, optValue u.OnFailureJobMode⟩,
  ⟨"IgnoreOnIsolate", "IgnoreOnIsolate", true, optValue u.IgnoreOnIsolate⟩,
  ⟨"StopWhenUnneeded", "StopWhenUnneeded", true, optValue u.StopWhenUnneeded⟩,
  ⟨"RefuseManualStart", "RefuseManualStart", true, optValue u.RefuseManualStart⟩,
  ⟨"RefuseManualStop", "RefuseManualStop", true, optValue u.RefuseManualStop⟩,
  ⟨"AllowIsolate", "AllowIsolate", true, optValue u.AllowIsolate⟩,
  ⟨"DefaultDependencies", "DefaultDependencies", true, optValue u.DefaultDependencies⟩,
  ⟨"JobTimeoutSec", "JobTimeoutSec", true, optValue u.JobTimeoutSec⟩,
  ⟨"JobTimeoutAction", "JobTimeoutAction", true, optValue u.JobTimeoutAction⟩,
  ⟨"StartLimitIntervalSec", "StartLimitIntervalSec", true, optValue u.StartLimitIntervalSec⟩,
  ⟨"StartLimitAction", "StartLimitAction", true, optValue u.StartLimitAction⟩,
  ⟨"Condition", "Condition", true, optValue u.Condition⟩,
  ⟨"Assert", "Assert", true, optValue u.Assert⟩,
  ⟨"SourcePath", "SourcePath", true, optValue u.SourcePath⟩
]

/-- Embeds the collaborator's projection (`section.MapTo`) into a `Unit` record: each field is
looked up in the parsed section under its ini-annotation key, defaulting to the empty string. -/
def Unit.mapTo (sec : List (Line × Line)) : Unit := {
  Description := getStr sec "Description",
  Documentation := getStr sec "Documentation",
  Requires := getStr sec "Requires",
  Requisite := getStr sec "Requisite",
  Wants := getStr sec "Wants",
  BindsTo := getStr sec "BindsTo",
  PartOf := getStr sec "PartOf",
  Conflicts := getStr sec "Conflicts",
  Before := getStr sec "Before",
  After := getStr sec "After",
  OnFailure := getStr sec "OnFailure",
  PropagatesReloadTo := getStr sec "PropagatesReloadTo",
  ReloadPropagatedFrom := getStr sec "ReloadPropagatedFrom",
  JoinsNamespaceOf := getStr sec "JoinsNamespaceOf",
  RequiresMountsFor := getStr sec "RequiresMountsFor",
  OnFailureJobMode := getStr sec "OnFailureJobMode",
  IgnoreOnIsolate := getStr sec "IgnoreOnIsolate",
  StopWhenUnneeded := getStr sec "StopWhenUnneeded",
  RefuseManualStart := getStr sec "RefuseManualStart",
  RefuseManualStop := getStr sec "RefuseManualStop",
  AllowIsolate := getStr sec "AllowIsolate",
  DefaultDependencies := getStr sec "DefaultDependencies",
  JobTimeoutSec := getStr sec "JobTimeoutSec",
  JobTimeoutAction := getStr sec "JobTimeoutAction",
  StartLimitIntervalSec := getStr sec "StartLimitIntervalSec",
  StartLimitAction := getStr sec "StartLimitAction",
  Condition := getStr sec "Condition",
  Assert := getStr sec "Assert",
  SourcePath := getStr sec "SourcePath"
}

/-- The `Service` record from the source: every field is a Go string defaulting to the empty string. -/
structure Service where
  Type' : String := ""
  ExecStart : String := ""
  ExecStartPre : String := ""
  ExecStartPost : String := ""
  ExecStop : String := ""
  ExecReload : String := ""
  RemainAfterExit : String := ""
  Restart : String := ""
  TimeoutSec : String := ""
  TimeoutStartSec : String := ""
  TimeoutStopSec : String := ""
  Environment : String := ""
  EnvironmentFile : String := ""
  WorkingDirectory : String := ""
  RootDirectory : String := ""
  User : String := ""
  Group : String := ""
  UMask : String := ""
  StandardError : String := ""
  StandardInput : String := ""
  StandardOutput : String := ""
  LimitNOFILE : String := ""
  LimitNPROC : String := ""
  RestartSec : String := ""
  SuccessExitStatus : String := ""
  RestartPreventExitStatus : String := ""
  RestartForceExitStatus : String := ""
  PermissionsStartOnly : String := ""
  RootDirectoryStartOnly : String := ""
  NonBlocking : String := ""
  NotifyAccess : String := ""
  Sockets : String := ""
  SuccessAction : String := ""
  FailureAction : String := ""
  CPUWeight : String := ""
  StartupCPUWeight : String := ""
  CPUQuota : String := ""
  MemoryLimit : String := ""
  TasksMax : String := ""
  AmbientCapabilities : String := ""
  CapabilityBoundingSet : String := ""
  ProtectSystem : String := ""
  ProtectHome : String := ""
  PrivateTmp : String := ""
  PrivateDevices : String := ""
  PrivateNetwork : String := ""
  ReadWritePaths : String := ""
  ReadOnlyPaths : String := ""
  InaccessiblePaths : String := ""
  NoNewPrivileges : String := ""
deriving DecidableEq

/-- Embeds `Service.tags` from the source: one descriptor per field, in declaration order, with
the emitted key and optionality taken from the field's systemd annotation and the value
nil (`none`) exactly when the field holds the empty string. -/
def Service.tags (s : Service) : List Tag := [
  ⟨"Type", "Type", true, optValue s.Type'⟩,
  ⟨"ExecStart", "ExecStart", false, optValue s.ExecStart⟩,
  ⟨"ExecStartPre", "ExecStartPre", true, optValue s.ExecStartPre⟩,
  ⟨"ExecStartPost", "ExecStartPost", true, optValue s.ExecStartPost⟩,
  ⟨"ExecStop", "ExecStop", true, optValue s.ExecStop⟩,
  ⟨"ExecReload", "ExecReload", true, optValue s.ExecReload⟩,
  ⟨"RemainAfterExit", "RemainAfterExit", true, optValue s.RemainAfterExit⟩,
  ⟨"Restart", "Restart", true, optValue s.Restart⟩,
  ⟨"TimeoutSec", "TimeoutSec", true, optValue s.TimeoutSec⟩,
  ⟨"TimeoutStartSec", "TimeoutStartSec", true, optValue s.TimeoutStartSec⟩,
  ⟨"TimeoutSec", "TimeoutStopSec", true, optValue s.TimeoutStopSec⟩,
  ⟨"Environment", "Environment", true, optValue s.Environment⟩,
  ⟨"EnvironmentFile", "EnvironmentFile", true, optValue s.EnvironmentFile⟩,
  ⟨"WorkingDirectory", "WorkingDirectory", true, optValue s.WorkingDirectory⟩,
  ⟨"RootDirectory", "RootDirectory", true, optValue s.RootDirectory⟩,
  ⟨"User", "User", true, optValue s.User⟩,
  ⟨"Group", "Group", true, optValue s.Group⟩,
  ⟨"UMask", "UMask", true, optValue s.UMask⟩,
  ⟨"StandardError", "StandardError", true, optValue s.StandardError⟩,
  ⟨"StandardInput", "StandardInput", true, optValue s.StandardInput⟩,
  ⟨"StandardOutput", "StandardOutput", true, optValue s.StandardOutput⟩,
  ⟨"LimitNOFILE", "LimitNOFILE", true, optValue s.LimitNOFILE⟩,
  ⟨"LimitNPROC", "LimitNPROC", true, optValue s.LimitNPROC⟩,
  ⟨"RestartSec", "RestartSec", true, optValue s.RestartSec⟩,
  ⟨"SuccessExitStatus", "SuccessExitStatus", true, optValue s.SuccessExitStatus⟩,
  ⟨"RestartPreventExitStatus", "RestartPreventExitStatus", true, optValue s.RestartPreventExitStatus⟩,
  ⟨"RestartForceExitStatus", "RestartForceExitStatus", true, optValue s.RestartForceExitStatus⟩,
  ⟨"PermissionsStartOnly", "PermissionsStartOnly", true, optValue s.PermissionsStartOnly⟩,
  ⟨"RootDirectoryStartOnly", "RootDirectoryStartOnly", true, optValue s.RootDirectoryStartOnly⟩,
  ⟨"NonBlocking", "NonBlocking", true, optValue s.NonBlocking⟩,
  ⟨"NotifyAccess", "NotifyAccess", true, optValue s.NotifyAccess⟩,
  ⟨"Sockets", "Sockets", true, optValue s.Sockets⟩,
  ⟨"SuccessAction", "SuccessAction", true, optValue s.SuccessAction⟩,
  ⟨"FailureAction", "FailureAction", true, optValue s.FailureAction⟩,
  ⟨"CPUWeight", "CPUWeight", true, optValue s.CPUWeight⟩,
  ⟨"StartupCPUWeight", "StartupCPUWeight", true, optValue s.StartupCPUWeight⟩,
  ⟨"CPUQuota", "CPUQuota", true, optValue s.CPUQuota⟩,
  ⟨"MemoryLimit", "MemoryLimit", true, optValue s.MemoryLimit⟩,
  ⟨"TasksMax", "TasksMax", true, optValue s.TasksMax⟩,
  ⟨"AmbientCapabilities", "AmbientCapabilities", true, optValue s.AmbientCapabilities⟩,
  ⟨"CapabilityBoundingSet", "CapabilityBoundingSet", true, optValue s.CapabilityBoundingSet⟩,
  ⟨"ProtectSystem", "ProtectSystem", true, optValue s.ProtectSystem⟩,
  ⟨"ProtectHome", "ProtectHome", true, optValue s.ProtectHome⟩,
  ⟨"PrivateTmp", "PrivateTmp", true, optValue s.PrivateTmp⟩,
  ⟨"PrivateDevices", "PrivateDevices", true, optValue s.PrivateDevices⟩,
  ⟨"PrivateNetwork", "PrivateNetwork", true, optValue s.PrivateNetwork⟩,
  ⟨"ReadWritePaths", "ReadWritePaths", true, optValue s.ReadWritePaths⟩,
  ⟨"ReadOnlyPaths", "ReadOnlyPaths", true, optValue s.ReadOnlyPaths⟩,
  ⟨"InaccessiblePaths", "InaccessiblePaths", true, optValue s.InaccessiblePaths⟩,
  ⟨"NoNewPrivileges", "NoNewPrivileges", true, optValue s.NoNewPrivileges⟩
]

/-- Embeds the collaborator's projection (`section.MapTo`) into a `Service` record: each field is
looked up in the parsed section under its ini-annotation key, defaulting to the empty string. -/
def Service.mapTo (sec : List (Line × Line)) : Service := {
  Type' := getStr sec "Type",
  ExecStart := getStr sec "ExecStart",
  ExecStartPre := getStr sec "ExecStartPre",
  ExecStartPost := getStr sec "ExecStartPost",
  ExecStop := getStr sec "ExecStop",
  ExecReload := getStr sec "ExecReload",
  RemainAfterExit := getStr sec "RemainAfterExit",
  Restart := getStr sec "Restart",
  TimeoutSec := getStr sec "TimeoutSec",
  TimeoutStartSec := getStr sec "TimeoutStartSec",
  TimeoutStopSec := getStr sec "TimeoutStopSec",
  Environment := getStr sec "Environment",
  EnvironmentFile := getStr sec "EnvironmentFile",
  WorkingDirectory := getStr sec "WorkingDirectory",
  RootDirectory := getStr sec "RootDirectory",
  User := getStr sec "User",
  Group := getStr sec "Group",
  UMask := getStr sec "UMask",
  StandardError := getStr sec "StandardError",
  StandardInput := getStr sec "StandardInput",
  StandardOutput := getStr sec "StandardOutput",
  LimitNOFILE := getStr sec "LimitNOFILE",
  LimitNPROC := getStr sec "LimitNPROC",
  RestartSec := getStr sec "RestartSec",
  SuccessExitStatus := getStr sec "SuccessExitStatus",
  RestartPreventExitStatus := getStr sec "RestartPreventExitStatus",
  RestartForceExitStatus := getStr sec "RestartForceExitStatus",
  PermissionsStartOnly := getStr sec "PermissionsStartOnly",
  RootDirectoryStartOnly := getStr sec "RootDirectoryStartOnly",
  NonBlocking := getStr sec "NonBlocking",
  NotifyAccess := getStr sec "NotifyAccess",
  Sockets := getStr sec "Sockets",
  SuccessAction := getStr sec "SuccessAction",
  FailureAction := getStr sec "FailureAction",
  CPUWeight := getStr sec "CPUWeight",
  StartupCPUWeight := getStr sec "StartupCPUWeight",
  CPUQuota := getStr sec "CPUQuota",
  MemoryLimit := getStr sec "MemoryLimit",
  TasksMax := getStr sec "TasksMax",
  AmbientCapabilities := getStr sec "AmbientCapabilities",
  CapabilityBoundingSet := getStr sec "CapabilityBoundingSet",
  ProtectSystem := getStr sec "ProtectSystem",
  ProtectHome := getStr sec "ProtectHome",
  PrivateTmp := getStr sec "PrivateTmp",
  PrivateDevices := getStr sec "PrivateDevices",
  PrivateNetwork := getStr sec "PrivateNetwork",
  ReadWritePaths := getStr sec "ReadWritePaths",
  ReadOnlyPaths := getStr sec "ReadOnlyPaths",
  InaccessiblePaths := getStr sec "InaccessiblePaths",
  NoNewPrivileges := getStr sec "NoNewPrivileges"
}

/-- The `Install` record from the source: every field is a Go string defaulting to the empty string. -/
structure Install where
  WantedBy : String := ""
  RequiredBy : String := ""
  Alias : String := ""
  Also : String := ""
  DefaultInstance : String := ""
deriving DecidableEq

/-- Embeds `Install.tags` from the source: one descriptor per field, in declaration order, with
the emitted key and optionality taken from the field's systemd annotation and the value
nil (`none`) exactly when the field holds the empty string. -/
def Install.tags (i : Install) : List Tag := [
  ⟨"WantedBy", "WantedBy", true, optValue i.WantedBy⟩,
  ⟨"RequiredBy", "RequiredBy", true, optValue i.RequiredBy⟩,
  ⟨"Alias", "Alias", true, optValue i.Alias⟩,
  ⟨"Also", "Also", true, optValue i.Also⟩,
  ⟨"DefaultInstance", "DefaultInstance", true, optValue i.DefaultInstance⟩
]

/-- Embeds the collaborator's projection (`section.MapTo`) into a `Install` record: each field is
looked up in the parsed section under its ini-annotation key, defaulting to the empty string. -/
def Install.mapTo (sec : List (Line × Line)) : Install := {
  WantedBy := getStr sec "WantedBy",
  RequiredBy := getStr sec "RequiredBy",
  Alias := getStr sec "Alias",
  Also := getStr sec "Also",
  DefaultInstance := getStr sec "DefaultInstance"
}

/-- The `Socket` record from the source: every field is a Go string defaulting to the empty string. -/
structure Socket where
  ListenStream : String := ""
  ListenDatagram : String := ""
  ListenSequentialPacket : String := ""
  ListenFIFO : String := ""
  ListenSpecial : String := ""
  ListenNetlink : String := ""
  ListenMessageQueue : String := ""
  SocketMode : String := ""
  SocketUser : String := ""
  SocketGroup : String := ""
  SocketProtocol : String := ""
  BindToDevice : String := ""
  Service : String := ""
  PassCredentials : String := ""
  PassSecurity : String := ""
  ReceiveBuffer : String := ""
  SendBuffer : String := ""
  MaxConnections : String := ""
  MaxConnectionsPerSource : String := ""
  KeepAlive : String := ""
  KeepAliveTimeSec : String := ""
  KeepAliveIntervalSec : String := ""
  KeepAliveProbes : String := ""
  NoDelay : String := ""
  Priority : String := ""
  DeferAcceptSec : String := ""
  Accept : String := ""
  Writable : String := ""
  TriggerLimitIntervalSec : String := ""
  TriggerLimitBurst : String := ""
deriving DecidableEq

/-- Embeds `Socket.tags` from the source: one descriptor per field, in declaration order, with
the emitted key and optionality taken from the field's systemd annotation and the value
nil (`none`) exactly when the field holds the empty string. -/
def Socket.tags (s : Socket) : List Tag := [
  ⟨"ListenStream", "ListenStream", true, optValue s.ListenStream⟩,
  ⟨"ListenDatagram", "ListenDatagram", true, optValue s.ListenDatagram⟩,
  ⟨"ListenSequentialPacket", "ListenSequentialPacket", true, optValue s.ListenSequentialPacket⟩,
  ⟨"ListenFIFO", "ListenFIFO", true, optValue s.ListenFIFO⟩,
  ⟨"ListenSpecial", "ListenSpecial", true, optValue s.ListenSpecial⟩,
  ⟨"ListenNetlink", "ListenNetlink", true, optValue s.ListenNetlink⟩,
  ⟨"ListenMessageQueue", "ListenMessageQueue", true, optValue s.ListenMessageQueue⟩,
  ⟨"SocketMode", "SocketMode", true, optValue s.SocketMode⟩,
  ⟨"SocketUser", "SocketUser", true, optValue s.SocketUser⟩,
  ⟨"SocketGroup", "SocketGroup", true, optValue s.SocketGroup⟩,
  ⟨"SocketProtocol", "SocketProtocol", true, optValue s.SocketProtocol⟩,
  ⟨"BindToDevice", "BindToDevice", true, optValue s.BindToDevice⟩,
  ⟨"Service", "Service", true, optValue s.Service⟩,
  ⟨"PassCredentials", "PassCredentials", true, optValue s.PassCredentials⟩,
  ⟨"PassSecurity", "PassSecurity", true, optValue s.PassSecurity⟩,
  ⟨"ReceiveBuffer", "ReceiveBuffer", true, optValue s.ReceiveBuffer⟩,
  ⟨"SendBuffer", "SendBuffer", true, optValue s.SendBuffer⟩,
  ⟨"MaxConnections", "MaxConnections", true, optValue s.MaxConnections⟩,
  ⟨"MaxConnectionsPerSource", "MaxConnectionsPerSource", true, optValue s.MaxConnectionsPerSource⟩,
  ⟨"KeepAlive", "KeepAlive", true, optValue s.KeepAlive⟩,
  ⟨"KeepAliveTimeSec", "KeepAliveTimeSec", true, optValue s.KeepAliveTimeSec⟩,
  ⟨"KeepAliveIntervalSec", "KeepAliveIntervalSec", true, optValue s.KeepAliveIntervalSec⟩,
  ⟨"KeepAliveProbes", "KeepAliveProbes", true, optValue s.KeepAliveProbes⟩,
  ⟨"NoDelay", "NoDelay", true, optValue s.NoDelay⟩,
  ⟨"Priority", "Priority", true, optValue s.Priority⟩,
  ⟨"DeferAcceptSec", "DeferAcceptSec", true, optValue s.DeferAcceptSec⟩,
  ⟨"Accept", "Accept", true, optValue s.Accept⟩,
  ⟨"Writable", "Writable", true, optValue s.Writable⟩,
  ⟨"TriggerLimitIntervalSec", "TriggerLimitIntervalSec", true, optValue s.TriggerLimitIntervalSec⟩,
  ⟨"TriggerLimitBurst", "TriggerLimitBurst", true, optValue s.TriggerLimitBurst⟩
]

/-- Embeds the collaborator's projection (`section.MapTo`) into a `Socket` record: each field is
looked up in the parsed section under its ini-annotation key, defaulting to the empty string. -/
def Socket.mapTo (sec : List (Line × Line)) : Socket := {
  ListenStream := getStr sec "ListenStream",
  ListenDatagram := getStr sec "ListenDatagram",
  ListenSequentialPacket := getStr sec "ListenSequentialPacket",
  ListenFIFO := getStr sec "ListenFIFO",
  ListenSpecial := getStr sec "ListenSpecial",
  ListenNetlink := getStr sec "ListenNetlink",
  ListenMessageQueue := getStr sec "ListenMessageQueue",
  SocketMode := getStr sec "SocketMode",
  SocketUser := getStr sec "SocketUser",
  SocketGroup := getStr sec "SocketGroup",
  SocketProtocol := getStr sec "SocketProtocol",
  BindToDevice := getStr sec "BindToDevice",
  Service := getStr sec "Service",
  PassCredentials := getStr sec "PassCredentials",
  PassSecurity := getStr sec "PassSecurity",
  ReceiveBuffer := getStr sec "ReceiveBuffer",
  SendBuffer := getStr sec "SendBuffer",
  MaxConnections := getStr sec "MaxConnections",
  MaxConnectionsPerSource := getStr sec "MaxConnectionsPerSource",
  KeepAlive := getStr sec "KeepAlive",
  KeepAliveTimeSec := getStr sec "KeepAliveTimeSec",
  KeepAliveIntervalSec := getStr sec "KeepAliveIntervalSec",
  KeepAliveProbes := getStr sec "KeepAliveProbes",
  NoDelay := getStr sec "NoDelay",
  Priority := getStr sec "Priority",
  DeferAcceptSec := getStr sec "DeferAcceptSec",
  Accept := getStr sec "Accept",
  Writable := getStr sec "Writable",
  TriggerLimitIntervalSec := getStr sec "TriggerLimitIntervalSec",
  TriggerLimitBurst := getStr sec "TriggerLimitBurst"
}

/-- Embeds the `assignments()` methods: iterate over the tags in order and, for
a tag that is required or whose value pointer is set, write the value under the
tag's key (replacing any earlier binding of the same key, as a Go map does).
For a required tag whose value pointer is nil, the source dereferences the nil
pointer (`*tag.Value`), which is a runtime panic. -/
def assignmentsOf : List Tag → Res (List (String × String)) :=
  go []
where
  /-- The fold underlying `assignmentsOf`, carrying the exports map. -/
  go (acc : List (String × String)) : List Tag → Res (List (String × String))
    | [] => .ok acc
    | t :: ts =>
      if !t.Optional || t.Value.isSome then
        match t.Value with
        | some v => go (upsert acc t.Name v) ts
        | none => .panic nilDeref
      else go acc ts

/-- Render one section as the collaborator's writer does under the settings of
`Marshal` (`PrettyEqual = false`, `PrettyFormat = false`): the bracketed header
line followed by one tight `key=value` line per assignment. -/
def renderSection (name : String) (assigns : List (String × String)) : List Line :=
  str ("[" ++ name ++ "]") :: assigns.map (fun kv => str kv.1 ++ '=' :: str kv.2)

/-- Embeds the `export()` methods: build the section's assignments, render the
section, pass every rendered line through the normalising scanner, and append
the final blank line.  The collaborator's `NewSection`/`NewKey` cannot fail
here because the section and key names are fixed non-empty literals, so the
only failure is the panic propagated from `assignments()`. -/
def exportSection (name : String) (tags : List Tag) : Res (List Line) :=
  match assignmentsOf tags with
  | .ok assigns => .ok ((renderSection name assigns).map normalizeLine ++ [[]])
  | .error e => .error e
  | .panic m => .panic m

/-- The set of key/value pairs `Unit.assignments()` emits. -/
def Unit.assignments (u : Unit) : Res (List (String × String)) :=
  assignmentsOf u.tags

/-- The rendered `[Unit]` section text of `Unit.export()`. -/
def Unit.export (u : Unit) : Res (List Line) :=
  exportSection "Unit" u.tags

/-- The set of key/value pairs `Service.assignments()` emits. -/
def Service.assignments (s : Service) : Res (List (String × String)) :=
  assignmentsOf s.tags

/-- The rendered `[Service]` section text of `Service.export()`. -/
def Service.export (s : Service) : Res (List Line) :=
  exportSection "Service" s.tags

/-- The set of key/value pairs `Install.assignments()` emits. -/
def Install.assignments (i : Install) : Res (List (String × String)) :=
  assignmentsOf i.tags

/-- The rendered `[Install]` section text of `Install.export()`. -/
def Install.export (i : Install) : Res (List Line) :=
  exportSection "Install" i.tags

/-- The set of key/value pairs `Socket.assignments()` emits. -/
def Socket.assignments (s : Socket) : Res (List (String × String)) :=
  assignmentsOf s.tags

/-- The rendered `[Socket]` section text of `Socket.export()`. -/
def Socket.export (s : Socket) : Res (List Line) :=
  exportSection "Socket" s.tags

/-- The `Daemon` record: the three mandatory sections plus the optional
`Socket` section, whose nil pointer is modelled as `none`. -/
structure Daemon where
  Unit : Unit := {}
  Service : Service := {}
  Install : Install := {}
  Socket : Option Socket := none
deriving DecidableEq

/-- Model of `bytes.TrimSpace` on a whole document held as lines: drop the
blank lines at the start and at the end (the section texts themselves never
carry whitespace at a line's edges, so line-level trimming is exact here). -/
def trimBlank (doc : List Line) : List Line :=
  ((doc.dropWhile List.isEmpty).reverse.dropWhile List.isEmpty).reverse

/-- Assembly step of `Daemon.MarshalText` over the outcomes of the four
section exports: a panic in a mandatory export propagates in evaluation order;
otherwise the mandatory errors are collected and, when any occurred, returned
together as one combined error and no text; otherwise the optional socket
export (when the socket is present) either fails on its own or has its text
appended last, and the concatenation is trimmed of surrounding blank lines. -/
def marshalAssemble (ru rs ri : Res (List Line)) (os : Option (Res (List Line))) :
    Res (List Line) :=
  match ru, rs, ri with
  | .panic m, _, _ => .panic m
  | _, .panic m, _ => .panic m
  | _, _, .panic m => .panic m
  | .ok u, .ok s, .ok i =>
    match os with
    | none => .ok (trimBlank (u ++ s ++ i))
    | some (.ok k) => .ok (trimBlank (u ++ s ++ i ++ k))
    | some (.error e) => .error e
    | some (.panic m) => .panic m
  | ru, rs, ri =>
    .error (errorsOf ru ++ errorsOf rs ++ errorsOf ri)
where
  /-- The messages a section export contributed to the `exceptions` slice. -/
  errorsOf : Res (List Line) → List String
    | .error e => e
    | _ => []

/-- Embeds `Daemon.MarshalText`: export the three mandatory sections, then the
optional socket section, and assemble the results. -/
def Daemon.MarshalText (d : Daemon) : Res (List Line) :=
  marshalAssemble d.Unit.export d.Service.export d.Install.export
    (d.Socket.map Socket.export)

/-- Embeds `Marshal`: it only sets the collaborator's formatting flags (already
reflected in `renderSection`) and delegates to `Daemon.MarshalText`. -/
def Marshal (d : Daemon) : Res (List Line) :=
  d.MarshalText

/-- A parsed document of the collaborator: named sections, in order, each an
ordered list of key/value pairs. -/
abbrev IniFile := List (String × List (Line × Line))

/-- Look a section up by name, absent (`none`) when the document has no such
section (the collaborator interface's `section(name)`). -/
def sectionOf (f : IniFile) (name : String) : Option (List (Line × Line)) :=
  alookup f name

/-- The collaborator interface's `HasSection`. -/
def hasSection (f : IniFile) (name : String) : Bool :=
  (sectionOf f name).isSome

/-- Record a key/value pair under the named section, creating the section at
the end when it does not exist yet and replacing the value when the key is
already bound. -/
def addKey (f : IniFile) (name : String) (k v : Line) : IniFile :=
  match f with
  | [] => [(name, [(k, v)])]
  | (n, sec) :: rest =>
    if n = name then (n, upsert sec k v) :: rest
    else (n, sec) :: addKey rest name k v

/-- Record a section header, merging with an existing section of that name. -/
def addSection (f : IniFile) (name : String) : IniFile :=
  if (alookup f name).isSome then f else f ++ [(name, [])]

/-- Reading one key/value line: split at the first `=` delimiter and trim the
arbitrary whitespace around it from both the key and the value. -/
def readKV (l : Line) : Option (Line × Line) :=
  match cutEq l with
  | some (k, v) => some (trimL k, trimL v)
  | none => none

/-- Modelled from the spec: the external INI parser (`ini.Load`).  Lines are
trimmed; blank lines and comment lines are skipped; `[name]` starts (or
re-opens) the named section; any other line must contain the `=` delimiter and
binds the trimmed key to the trimmed value in the current section (the default
section before any header); a line with no delimiter is a parse error. -/
def parseIni (ls : List Line) : Except String IniFile :=
  go "DEFAULT" [] ls
where
  /-- Line-by-line accumulation of the parsed document. -/
  go (cur : String) (acc : IniFile) : List Line → Except String IniFile
    | [] => .ok acc
    | l :: rest =>
      match trimL l with
      | [] => go cur acc rest
      | c :: cs =>
        if c = '#' || c = ';' then go cur acc rest
        else if c = '[' then
          if (c :: cs).getLast? = some ']' then
            let name := String.mk (trimL cs.dropLast)
            go name (addSection acc name) rest
          else .error "unclosed section"
        else
          match readKV (c :: cs) with
          | some (k, v) => go cur (addKey acc cur k v) rest
          | none => .error "key-value delimiter not found"

/-- The body shared verbatim by `Unmarshal` and `Daemon.UnmarshalText` in the
source: load the text, require each of the `Unit`, `Service` and `Install`
sections in that order (a missing one is reported immediately by name and no
record is produced), then handle the optional `Socket` section: absent or
empty, the socket pointer stays nil; present with keys, the source projects
into the still-nil socket pointer (`section.MapTo(socket)` on `var socket
*Socket`), which faults at runtime. -/
def unmarshalCore (ls : List Line) : Res Daemon :=
  match parseIni ls with
  | .error e => .error ["unable to unmarshal daemon file: " ++ e]
  | .ok file =>
    match sectionOf file "Unit" with
    | none => .error ["invalid [Unit] systemd section"]
    | some secU =>
      match sectionOf file "Service" with
      | none => .error ["invalid [Service] systemd section"]
      | some secS =>
        match sectionOf file "Install" with
        | none => .error ["invalid [Install] systemd section"]
        | some secI =>
          match sectionOf file "Socket" with
          | some secK =>
            if secK.length > 0 then .panic nilDeref
            else .ok ⟨Unit.mapTo secU, Service.mapTo secS, Install.mapTo secI, none⟩
          | none =>
            .ok ⟨Unit.mapTo secU, Service.mapTo secS, Install.mapTo secI, none⟩

/-- Embeds the package-level `Unmarshal`: `.ok` carries the returned record,
`.error` means the nil record with that error. -/
def Unmarshal (ls : List Line) : Res Daemon :=
  unmarshalCore ls

/-- Embeds the method `Daemon.UnmarshalText`: the first component is the
receiver's state after the call (assigned only when the whole body succeeded),
the second its outcome. -/
def Daemon.UnmarshalText (d : Daemon) (ls : List Line) : Daemon × Res PUnit :=
  match unmarshalCore ls with
  | .ok instance' => (instance', .ok ⟨⟩)
  | .error e => (d, .error e)
  | .panic m => (d, .panic m)

/-- All tag descriptors of a daemon, across its sections. -/
def Daemon.allTags (d : Daemon) : List Tag :=
  d.Unit.tags ++ d.Service.tags ++ d.Install.tags ++
    (match d.Socket with
     | some s => s.tags
     | none => [])

/-- Serialize a daemon and deserialize the produced text again, propagating any
failure of either direction. -/
def unmarshalMarshal (d : Daemon) : Res Daemon :=
  match Marshal d with
  | .ok ls => Unmarshal ls
  | .error e => .error e
  | .panic m => .panic m

/-- Whether the pattern occurs at the start of the text. -/
def leadsWith : Line → Line → Bool
  | [], _ => true
  | _ :: _, [] => false
  | p :: ps, h :: hs => p = h && leadsWith ps hs

/-- Whether the pattern occurs anywhere inside the text. -/
def mentions : Line → Line → Bool
  | [], pat => pat.isEmpty
  | h :: hs, pat => leadsWith pat (h :: hs) || mentions hs pat

/-- Whether a line containing the `=` delimiter has exactly one space before it
and exactly one space after it; a line with no delimiter passes vacuously. -/
def spacedEq (l : Line) : Bool :=
  match cutEq l with
  | none => true
  | some (k, v) =>
    (match k.getLast? with
     | some ' ' => !(k.dropLast.getLast? == some ' ')
     | _ => false) &&
    (match v with
     | ' ' :: rest => !(rest.head? == some ' ')
     | _ => false)

/-- Daemon whose mandatory fields are populated and whose only optional field
set is `Service.TimeoutStopSec`, exercising the round trip on that field. -/
def roundTripInput : Daemon :=
  { Unit := { Description := "d" }
    Service := { ExecStart := "/bin/x", TimeoutStopSec := "5s" } }

/-- The daemon that deserializing `Marshal roundTripInput` actually produces:
the `TimeoutStopSec` value has moved into the `TimeoutSec` field. -/
def roundTripOutput : Daemon :=
  { Unit := { Description := "d" }
    Service := { ExecStart := "/bin/x", TimeoutSec := "5s" } }

/-- Daemon whose optional `Service.TimeoutSec` field is left empty while
`Service.TimeoutStopSec` is set, for the key-omission property. -/
def omissionDaemon : Daemon :=
  { Unit := { Description := "svc" }
    Service := { ExecStart := "/bin/app", TimeoutStopSec := "90" } }

/-- The text `Marshal omissionDaemon` renders. -/
def omissionLines : List Line :=
  [str "[Unit]", str "Description=svc", str "",
   str "[Service]", str "ExecStart=/bin/app", str "TimeoutSec=90", str "",
   str "[Install]"]

/-- A minimal daemon with only the two required fields populated, for the
delimiter-format counterexample. -/
def spacingDaemon : Daemon :=
  { Unit := { Description := "Dedicated Server" }
    Service := { ExecStart := "/usr/bin/app" } }

/-- The text `Marshal spacingDaemon` renders. -/
def spacingLines : List Line :=
  [str "[Unit]", str "Description=Dedicated Server", str "",
   str "[Service]", str "ExecStart=/usr/bin/app", str "",
   str "[Install]"]

/-- A daemon populated like the spec's example scenario, for the
section-order witness. -/
def orderDaemon : Daemon :=
  { Unit := { Description := "Example Description of the Daemon.", Wants := "network.target" }
    Service := { ExecStart := "/usr/bin/example-agent", StandardOutput := "journal" }
    Install := { WantedBy := "multi-user.target" } }

/-! Theorems.  Each claim of the specification audit is settled by exactly one
theorem below; shared helper lemmas precede them. -/

/-- C10: if `Daemon.UnmarshalText` returns a non-nil error, the receiver is
exactly as it was before the call (it is assigned only after every section has
been processed successfully). -/
theorem unmarshalText_error_leaves_receiver (d : Daemon) (ls : List Line)
    (e : List String) (h : (d.UnmarshalText ls).2 = .error e) :
    (d.UnmarshalText ls).1 = d := by
  unfold Daemon.UnmarshalText at h ⊢
  cases hc : unmarshalCore ls <;> simp_all

/-- Witness for C10: a concrete failing input leaves a concrete receiver
untouched. -/
theorem unmarshalText_error_leaves_receiver_witness :
    (({} : Daemon).UnmarshalText [str "junk"]).1 = ({} : Daemon) :=
  unmarshalText_error_leaves_receiver ({} : Daemon) [str "junk"]
    ["unable to unmarshal daemon file: key-value delimiter not found"] (by decide)

/-- C2 counterexample: the input `[Install]` parses and contains no `Service`
section, yet `Unmarshal` reports the `Unit` section (the first missing one in
the fixed order) and its error does not name `Service`. -/
theorem unmarshal_missing_service_error_misnamed :
    Unmarshal [str "[Install]"] = .error ["invalid [Unit] systemd section"] ∧
    mentions (str "invalid [Unit] systemd section") (str "Service") = false := by
  decide

/-- C2 amended: on parsed input, `Unmarshal` fails with a missing-required-
section error naming the first section absent from the input in the fixed
order `Unit`, `Service`, `Install`, and returns no record. -/
theorem unmarshal_missing_section_named (ls : List Line) (f : IniFile)
    (hp : parseIni ls = .ok f) :
    (sectionOf f "Unit" = none →
        Unmarshal ls = .error ["invalid [Unit] systemd section"]) ∧
    ((sectionOf f "Unit").isSome → sectionOf f "Service" = none →
        Unmarshal ls = .error ["invalid [Service] systemd section"]) ∧
    ((sectionOf f "Unit").isSome → (sectionOf f "Service").isSome →
        sectionOf f "Install" = none →
        Unmarshal ls = .error ["invalid [Install] systemd section"]) := by
  unfold Unmarshal unmarshalCore
  rw [hp]
  dsimp only
  refine ⟨fun h1 => by rw [h1], fun h1 h2 => ?_, fun h1 h2 h3 => ?_⟩
  · obtain ⟨s1, hs1⟩ := Option.isSome_iff_exists.mp h1
    rw [hs1, h2]
  · obtain ⟨s1, hs1⟩ := Option.isSome_iff_exists.mp h1
    obtain ⟨s2, hs2⟩ := Option.isSome_iff_exists.mp h2
    rw [hs1, hs2, h3]

/-- Witness for the amended C2: text containing only a `Unit` header yields
the error naming `Service`. -/
theorem unmarshal_missing_section_named_witness :
    Unmarshal [str "[Unit]"] = .error ["invalid [Service] systemd section"] :=
  (unmarshal_missing_section_named [str "[Unit]"] [("Unit", [])]
    rfl).2.1 (by decide) (by decide)

/-- C5: on parsed input containing the three mandatory sections and either no
`Socket` section or one with zero keys, `Unmarshal` succeeds and the returned
record's socket pointer is nil, with no error for the socket section. -/
theorem unmarshal_socket_absent (ls : List Line) (f : IniFile)
    (hp : parseIni ls = .ok f)
    (hu : (sectionOf f "Unit").isSome)
    (hs : (sectionOf f "Service").isSome)
    (hi : (sectionOf f "Install").isSome)
    (hk : sectionOf f "Socket" = none ∨ sectionOf f "Socket" = some []) :
    ∃ d : Daemon, Unmarshal ls = .ok d ∧ d.Socket = none := by
  obtain ⟨s1, hs1⟩ := Option.isSome_iff_exists.mp hu
  obtain ⟨s2, hs2⟩ := Option.isSome_iff_exists.mp hs
  obtain ⟨s3, hs3⟩ := Option.isSome_iff_exists.mp hi
  refine ⟨⟨Unit.mapTo s1, Service.mapTo s2, Install.mapTo s3, none⟩, ?_, rfl⟩
  unfold Unmarshal unmarshalCore
  rw [hp]
  dsimp only
  rw [hs1, hs2, hs3]
  rcases hk with hk | hk <;> rw [hk]
  all_goals rfl

/-- Witness for C5: a document with the three mandatory headers and an empty
`Socket` section deserializes to a record with an absent socket. -/
theorem unmarshal_socket_absent_witness :
    ∃ d : Daemon,
      Unmarshal [str "[Unit]", str "[Service]", str "[Install]", str "[Socket]"] =
          .ok d ∧ d.Socket = none :=
  unmarshal_socket_absent _
    [("Unit", []), ("Service", []), ("Install", []), ("Socket", [])]
    rfl (by decide) (by decide) (by decide) (.inr rfl)

/-- C1 (failing evaluation): the round trip loses `Service.TimeoutStopSec`.
`roundTripInput` has every mandatory field and the optional `TimeoutStopSec`
set to non-empty strings, yet deserializing its serialization yields a record
whose `TimeoutStopSec` is empty and whose empty-and-optional `TimeoutSec` has
become `"5s"`: the `TimeoutStopSec` field's systemd annotation says
`TimeoutSec`, unlike its ini/json/yaml annotations. -/
theorem roundtrip_loses_timeoutStopSec :
    unmarshalMarshal roundTripInput = .ok roundTripOutput ∧
    roundTripInput.Service.TimeoutStopSec = "5s" ∧
    roundTripOutput.Service.TimeoutStopSec = "" ∧
    roundTripInput.Service.TimeoutSec = "" ∧
    roundTripOutput.Service.TimeoutSec = "5s" := by
  decide

/-- C3 (failing evaluation): marshalling a daemon whose required
`Unit.Description` holds the empty string does not emit `Description=` — it
dereferences the tag's nil value pointer (`*tag.Value` in `assignments()`) and
panics at runtime. -/
theorem marshal_empty_required_field_panics :
    Marshal ({} : Daemon) = .panic nilDeref ∧
    (⟨"Description", "Description", false, none⟩ : Tag) ∈ Unit.tags ({} : Unit) := by
  decide

/-- C4 (failing evaluation): input with the three mandatory sections and a
populated `Socket` section makes `Unmarshal` project into the still-nil socket
pointer (`section.MapTo(socket)` on `var socket *Socket`), a runtime fault —
neither a populated record nor a wrapped projection error. -/
theorem unmarshal_populated_socket_faults :
    Unmarshal
        [str "[Unit]", str "Description=d", str "[Service]", str "ExecStart=/x",
         str "[Install]", str "[Socket]", str "ListenStream=/run/x.sock"] =
      .panic nilDeref := by
  decide

/-- C7 (failing evaluation): `omissionDaemon` leaves the optional
`Service.TimeoutSec` field empty, yet the rendered text contains a line whose
key is `TimeoutSec`, because the `TimeoutStopSec` field's systemd annotation
emits under the key `TimeoutSec`. -/
theorem omitted_optional_key_still_rendered :
    Marshal omissionDaemon = .ok omissionLines ∧
    (⟨"TimeoutSec", "TimeoutSec", true, none⟩ : Tag) ∈ omissionDaemon.Service.tags ∧
    str "TimeoutSec=90" ∈ omissionLines ∧
    cutEq (str "TimeoutSec=90") = some (str "TimeoutSec", str "90") := by
  decide

/-- C6 counterexample: `Marshal` output delimits keys from values with a bare
`=`: the rendered text of `spacingDaemon` has a key/value line without one
space before and after the `=`. -/
theorem marshal_delimiter_not_spaced :
    Marshal spacingDaemon = .ok spacingLines ∧
    ¬ (∀ l ∈ spacingLines, spacedEq l = true) := by
  decide

/-- Unfolding `trimEnd` over a cons cell. -/
theorem trimEnd_cons (c : Char) (l : Line) :
    trimEnd (c :: l) = if (trimEnd l).isEmpty && isWS c then [] else c :: trimEnd l := rfl

/-- Trimming trailing whitespace twice is trimming it once. -/
theorem trimEnd_idem (l : Line) : trimEnd (trimEnd l) = trimEnd l := by
  induction l with
  | nil => rfl
  | cons c l ih =>
    rw [trimEnd_cons]
    cases h : ((trimEnd l).isEmpty && isWS c) with
    | true => simp [h, trimEnd]
    | false =>
      simp only [h, Bool.false_eq_true, if_false]
      rw [trimEnd_cons, ih, h]
      simp

/-- Trimming trailing whitespace only removes a suffix. -/
theorem trimEnd_front (l : Line) : trimEnd l <+: l := by
  induction l with
  | nil => exact List.nil_prefix
  | cons c l ih =>
    rw [trimEnd_cons]
    cases h : ((trimEnd l).isEmpty && isWS c) with
    | true => simp [h]
    | false =>
      simp only [h, Bool.false_eq_true, if_false]
      exact List.cons_prefix_cons.mpr ⟨rfl, ih⟩

/-- A character of the end-trimmed line is a character of the line. -/
theorem mem_trimEnd {a : Char} {l : Line} (h : a ∈ trimEnd l) : a ∈ l :=
  (trimEnd_front l).sublist.mem h

/-- A character of the start-trimmed line is a character of the line. -/
theorem mem_trimStart {a : Char} {l : Line} (h : a ∈ trimStart l) : a ∈ l :=
  (List.dropWhile_sublist isWS).mem h

/-- A character of the trimmed line is a character of the line. -/
theorem mem_trimL {a : Char} {l : Line} (h : a ∈ trimL l) : a ∈ l :=
  mem_trimStart (mem_trimEnd h)

/-- The head of a start-trimmed line is not whitespace. -/
theorem trimStart_head_not_ws {c : Char} {cs : Line} :
    ∀ {l : Line}, trimStart l = c :: cs → isWS c = false := by
  intro l
  induction l with
  | nil => intro h; exact absurd h (by simp [trimStart])
  | cons a l ih =>
    intro h
    rw [trimStart, List.dropWhile_cons] at h
    split at h
    · exact ih h
    · next ha => cases h; simpa using ha

/-- A start-trimmed line is a fixed point of start-trimming. -/
theorem trimStart_trimStart (l : Line) : trimStart (trimStart l) = trimStart l := by
  cases h : trimStart l with
  | nil => rfl
  | cons c cs =>
    have hc := trimStart_head_not_ws h
    rw [trimStart, List.dropWhile_cons, hc]
    simp

/-- End-trimming preserves being start-trimmed. -/
theorem trimStart_trimEnd_trimStart (l : Line) :
    trimStart (trimEnd (trimStart l)) = trimEnd (trimStart l) := by
  cases hx : trimEnd (trimStart l) with
  | nil => rfl
  | cons c cs =>
    obtain ⟨t, ht⟩ := trimEnd_front (trimStart l)
    rw [hx] at ht
    have hc : isWS c = false := trimStart_head_not_ws (l := l) (by rw [← ht]; rfl)
    rw [trimStart, List.dropWhile_cons, hc]
    simp

/-- Trimming twice is trimming once. -/
theorem trimL_idem (l : Line) : trimL (trimL l) = trimL l := by
  show trimEnd (trimStart (trimEnd (trimStart l))) = trimEnd (trimStart l)
  rw [trimStart_trimEnd_trimStart, trimEnd_idem]

/-- Cutting at the delimiter inverts gluing a delimiter-free key to a value. -/
theorem cutEq_append : ∀ (k v : Line), '=' ∉ k → cutEq (k ++ '=' :: v) = some (k, v)
  | [], v, _ => by simp [cutEq]
  | c :: k, v, h => by
    have hc : ¬ (c = '=') := fun hce => h (List.mem_cons.mpr (Or.inl hce.symm))
    have ih := cutEq_append k v (fun hm => h (List.mem_cons_of_mem c hm))
    simp [cutEq, hc, ih]

/-- What a successful cut tells about the line: it is the delimiter-free key,
the delimiter, then the value. -/
theorem cutEq_some : ∀ {l k v : Line}, cutEq l = some (k, v) → l = k ++ '=' :: v ∧ '=' ∉ k := by
  intro l
  induction l with
  | nil => intro k v h; exact absurd h (by simp [cutEq])
  | cons c cs ih =>
    intro k v h
    by_cases hc : c = '='
    · rw [cutEq, if_pos hc] at h
      injection h with h'
      injection h' with h1 h2
      subst h1; subst h2; subst hc
      simp
    · rw [cutEq, if_neg hc] at h
      cases hcs : cutEq cs with
      | none => rw [hcs] at h; exact absurd h (by simp)
      | some p =>
        obtain ⟨k', v'⟩ := p
        rw [hcs] at h
        injection h with h'
        injection h' with h1 h2
        subst h1; subst h2
        obtain ⟨hcs1, hcs2⟩ := ih hcs
        constructor
        · rw [hcs1]; rfl
        · intro hm
          rcases List.mem_cons.mp hm with hm | hm
          · exact hc hm.symm
          · exact hcs2 hm

/-- Reading a padded key/value line trims the whitespace around the delimiter. -/
theorem readKV_trims (a b : Line) (h : '=' ∉ a) :
    readKV (a ++ '=' :: b) = some (trimL a, trimL b) := by
  unfold readKV
  rw [cutEq_append a b h]

/-- Both parts of a cut of a normalised line are already trimmed. -/
theorem normalizeLine_parts {x k v : Line}
    (h : cutEq (normalizeLine x) = some (k, v)) : trimL k = k ∧ trimL v = v := by
  unfold normalizeLine at h
  cases hx : cutEq x with
  | none =>
    rw [hx] at h
    dsimp only at h
    rw [hx] at h
    exact Option.noConfusion h
  | some p =>
    obtain ⟨k₀, v₀⟩ := p
    rw [hx] at h
    dsimp only at h
    have hnk : '=' ∉ trimL k₀ := fun hm => (cutEq_some hx).2 (mem_trimL hm)
    rw [cutEq_append _ _ hnk] at h
    injection h with h'
    injection h' with h1 h2
    subst h1; subst h2
    exact ⟨trimL_idem k₀, trimL_idem v₀⟩

/-- Every line an `export` produces is blank or the image of the normalising
scanner. -/
theorem exportSection_line_shape {name : String} {tags : List Tag} {L : List Line}
    {l : Line} (h : exportSection name tags = .ok L) (hl : l ∈ L) :
    l = [] ∨ ∃ x, l = normalizeLine x := by
  unfold exportSection at h
  cases ha : assignmentsOf tags with
  | ok assigns =>
    rw [ha] at h
    injection h with h'
    subst h'
    rcases List.mem_append.mp hl with hm | hm
    · obtain ⟨x, _, hx⟩ := List.mem_map.mp hm
      exact Or.inr ⟨x, hx.symm⟩
    · exact Or.inl (List.mem_singleton.mp hm)
  | error e => rw [ha] at h; exact absurd h (by simp)
  | panic m => rw [ha] at h; exact absurd h (by simp)

/-- A line of a blank-trimmed document is a line of the document. -/
theorem mem_trimBlank {L : List Line} {l : Line} (h : l ∈ trimBlank L) : l ∈ L := by
  unfold trimBlank at h
  have h1 := List.mem_reverse.mp h
  have h2 := (List.dropWhile_sublist _).mem h1
  have h3 := List.mem_reverse.mp h2
  exact (List.dropWhile_sublist _).mem h3

/-- Decomposition of a successful `Marshal`: the three mandatory section texts
in their fixed order, the socket text appended last exactly when the socket is
present, and the whole trimmed of surrounding blank lines. -/
theorem marshal_ok_decomp (d : Daemon) (L : List Line) (h : Marshal d = .ok L) :
    ∃ u s i, d.Unit.export = .ok u ∧ d.Service.export = .ok s ∧
      d.Install.export = .ok i ∧
      ((d.Socket = none ∧ L = trimBlank (u ++ s ++ i)) ∨
       (∃ so k, d.Socket = some so ∧ so.export = .ok k ∧
          L = trimBlank (u ++ s ++ i ++ k))) := by
  unfold Marshal Daemon.MarshalText marshalAssemble at h
  rcases hu : d.Unit.export with u | eu | mu <;> rw [hu] at h <;>
    rcases hs : d.Service.export with s | es | ms <;> rw [hs] at h <;>
      rcases hi : d.Install.export with i | ei | mi <;> rw [hi] at h <;>
        dsimp only at h
  all_goals try exact Res.noConfusion h
  rcases hso : d.Socket with _ | so <;> rw [hso] at h <;> dsimp only [Option.map] at h
  · injection h with h'
    exact ⟨u, s, i, rfl, rfl, rfl, Or.inl ⟨rfl, h'.symm⟩⟩
  · rcases hk : Socket.export so with k | ek | mk <;> rw [hk] at h <;> dsimp only at h
    · injection h with h'
      exact ⟨u, s, i, rfl, rfl, rfl, Or.inr ⟨so, k, rfl, hk, h'.symm⟩⟩
    · exact absurd h (by simp)
    · exact absurd h (by simp)

/-- Every line of a successful `Marshal` is blank or normalised. -/
theorem marshal_line_shape {d : Daemon} {L : List Line} {l : Line}
    (h : Marshal d = .ok L) (hl : l ∈ L) : l = [] ∨ ∃ x, l = normalizeLine x := by
  obtain ⟨u, s, i, hu, hs, hi, hrest⟩ := marshal_ok_decomp d L h
  rcases hrest with ⟨-, rfl⟩ | ⟨so, k, -, hk, rfl⟩
  · rcases List.mem_append.mp (mem_trimBlank hl) with h1 | h1
    · rcases List.mem_append.mp h1 with h2 | h2
      · exact exportSection_line_shape hu h2
      · exact exportSection_line_shape hs h2
    · exact exportSection_line_shape hi h1
  · rcases List.mem_append.mp (mem_trimBlank hl) with h1 | h1
    · rcases List.mem_append.mp h1 with h2 | h2
      · rcases List.mem_append.mp h2 with h3 | h3
        · exact exportSection_line_shape hu h3
        · exact exportSection_line_shape hs h3
      · exact exportSection_line_shape hi h2
    · exact exportSection_line_shape hk h1

/-- C6 amended: in `Marshal` output every line containing the delimiter is a
trimmed key, a bare `=` with no whitespace on either side, then a trimmed
value; and on input, reading a key/value line trims arbitrary whitespace
around the delimiter from both parts. -/
theorem marshal_delimiter_tight :
    (∀ (d : Daemon) (L : List Line), Marshal d = .ok L →
      ∀ l ∈ L, ∀ k v, cutEq l = some (k, v) → trimL k = k ∧ trimL v = v) ∧
    (∀ (a b : Line), '=' ∉ a → readKV (a ++ '=' :: b) = some (trimL a, trimL b)) := by
  constructor
  · intro d L h l hl k v hc
    rcases marshal_line_shape h hl with rfl | ⟨x, rfl⟩
    · exact absurd hc (by simp [cutEq])
    · exact normalizeLine_parts hc
  · exact readKV_trims

/-- Witness for the amended C6: a concrete output line is tightly delimited,
and a concrete padded input line is trimmed on read. -/
theorem marshal_delimiter_tight_witness :
    (trimL (str "Description") = str "Description" ∧
      trimL (str "Dedicated Server") = str "Dedicated Server") ∧
    readKV (str " Type " ++ '=' :: str " exec ") =
      some (trimL (str " Type "), trimL (str " exec ")) :=
  ⟨marshal_delimiter_tight.1 spacingDaemon spacingLines (by decide)
      (str "Description=Dedicated Server") (by decide)
      (str "Description") (str "Dedicated Server") (by decide),
    marshal_delimiter_tight.2 (str " Type ") (str " exec ") (by decide)⟩

/-- C8: a successful `Marshal` consists of the `Unit`, `Service` and `Install`
section texts in that fixed order, with the `Socket` section text appended
last exactly when the socket is present, the whole trimmed of surrounding
blank space. -/
theorem marshal_fixed_section_order (d : Daemon) (L : List Line)
    (h : Marshal d = .ok L) :
    ∃ u s i, d.Unit.export = .ok u ∧ d.Service.export = .ok s ∧
      d.Install.export = .ok i ∧
      ((d.Socket = none ∧ L = trimBlank (u ++ s ++ i)) ∨
       (∃ so k, d.Socket = some so ∧ so.export = .ok k ∧
          L = trimBlank (u ++ s ++ i ++ k))) :=
  marshal_ok_decomp d L h

set_option maxRecDepth 4000 in
/-- Witness for C8: the spec's example scenario decomposes into its three
section texts in order with no socket text. -/
theorem marshal_fixed_section_order_witness :
    ∃ u s i, orderDaemon.Unit.export = .ok u ∧ orderDaemon.Service.export = .ok s ∧
      orderDaemon.Install.export = .ok i ∧
      ((orderDaemon.Socket = none ∧
          [str "[Unit]", str "Description=Example Description of the Daemon.",
           str "Wants=network.target", str "",
           str "[Service]", str "ExecStart=/usr/bin/example-agent",
           str "StandardOutput=journal", str "",
           str "[Install]", str "WantedBy=multi-user.target"] =
            trimBlank (u ++ s ++ i)) ∨
       (∃ so k, orderDaemon.Socket = some so ∧ so.export = .ok k ∧
          [str "[Unit]", str "Description=Example Description of the Daemon.",
           str "Wants=network.target", str "",
           str "[Service]", str "ExecStart=/usr/bin/example-agent",
           str "StandardOutput=journal", str "",
           str "[Install]", str "WantedBy=multi-user.target"] =
            trimBlank (u ++ s ++ i ++ k))) :=
  marshal_fixed_section_order orderDaemon
    [str "[Unit]", str "Description=Example Description of the Daemon.",
     str "Wants=network.target", str "",
     str "[Service]", str "ExecStart=/usr/bin/example-agent",
     str "StandardOutput=journal", str "",
     str "[Install]", str "WantedBy=multi-user.target"] rfl

/-- C9: serialization aggregates section-encode failures.  First conjunct: the
assembly of `Daemon.MarshalText` is exactly `marshalAssemble` over the four
section-export outcomes.  Second: whenever any mandatory export fails (and
none faults), the assembly returns no text and the single combined error
holding every failure that occurred, in order, not just the first.  Third:
when every export succeeds, the concatenated trimmed text is returned with no
error. -/
theorem marshal_collects_section_errors :
    (∀ d : Daemon,
      d.MarshalText =
        marshalAssemble d.Unit.export d.Service.export d.Install.export
          (d.Socket.map Socket.export)) ∧
    (∀ (ru rs ri : Res (List Line)) (os : Option (Res (List Line))),
      (∀ m, ru ≠ .panic m) → (∀ m, rs ≠ .panic m) → (∀ m, ri ≠ .panic m) →
      marshalAssemble.errorsOf ru ++ marshalAssemble.errorsOf rs ++
          marshalAssemble.errorsOf ri ≠ [] →
      marshalAssemble ru rs ri os =
        .error (marshalAssemble.errorsOf ru ++ marshalAssemble.errorsOf rs ++
          marshalAssemble.errorsOf ri)) ∧
    (∀ (d : Daemon) (u s i : List Line),
      d.Unit.export = .ok u → d.Service.export = .ok s → d.Install.export = .ok i →
      (d.Socket = none → Marshal d = .ok (trimBlank (u ++ s ++ i))) ∧
      (∀ so k, d.Socket = some so → so.export = .ok k →
        Marshal d = .ok (trimBlank (u ++ s ++ i ++ k)))) := by
  refine ⟨fun d => rfl, ?_, ?_⟩
  · intro ru rs ri os hpu hps hpi hne
    cases ru <;> cases rs <;> cases ri <;>
      first
        | exact absurd rfl (hpu _)
        | exact absurd rfl (hps _)
        | exact absurd rfl (hpi _)
        | exact absurd rfl hne
        | rfl
  · intro d u s i hu hs hi
    constructor
    · intro hnone
      unfold Marshal Daemon.MarshalText
      rw [hu, hs, hi, hnone]
      rfl
    · intro so k hso hk
      unfold Marshal Daemon.MarshalText
      rw [hu, hs, hi, hso]
      dsimp only [Option.map]
      rw [hk]
      rfl

/-- Witness for C9: two failing mandatory exports are both reported in the one
combined error, and a concrete all-success daemon returns its text. -/
theorem marshal_collects_section_errors_witness :
    marshalAssemble (.error ["unit failed"]) (.ok []) (.error ["install failed"]) none =
      .error ["unit failed", "install failed"] :=
  marshal_collects_section_errors.2.1 (.error ["unit failed"]) (.ok [])
    (.error ["install failed"]) none
    (fun _ h => Res.noConfusion h) (fun _ h => Res.noConfusion h)
    (fun _ h => Res.noConfusion h) (by decide)

end systemd
